import Mathlib

/-!
# Verification of the `jsapi` JavaScript binding shim (`libs/jsapi/jsbindings.cpp`)

The source file exposes a subset of the filament engine API to JavaScript via
emscripten embind.  Every exposed operation is a forwarding body that performs a
single call into the external engine (or is the engine member itself, bound
directly).  We embed the file shallowly:

* the registration table of the three `EMSCRIPTEN_BINDINGS` blocks becomes the
  data `bindingTable` / `registeredClasses`;
* each exposed operation becomes a constructor of `OpId`, and its body is
  transcribed by `decode`, which maps the operation and its marshalled input to
  the single external call it performs, the extra layer actions it takes
  (only `Engine::create` allocates a wrapper), and how it builds its result
  from the external call's return value;
* the external engine itself is not part of the source slice, so it is an
  oracle: a function from external calls to results (or errors).  `run` ties
  the two together and yields the action trace and result of one invocation.

Machine integers are only marshalled here, never computed with, so `int`
arguments are carried as `Int` and the `float` components of `math::float3`
are carried by an opaque integer scalar; pointers are natural-number
addresses with `0` as `nullptr`.
-/

/-- A C++ pointer value: a natural-number address; `0` models `nullptr`. -/
abbrev Ptr := Nat

/-- The null pointer (`nullptr` in the source). -/
def nullp : Ptr := 0

/-- The backend enumeration `filament::Engine::Backend`.  The filament header
is outside the given source slice; we only need that `OPENGL` is one value
among several, so the enumeration lists the backends the engine advertises. -/
inductive Backend
  | DEFAULT
  | OPENGL
  | VULKAN
  | METAL
deriving DecidableEq, Repr

/-- `math::float3`: three scalar components.  The binding only marshals these
values (value_array registration), never computes with them, so the scalar
carrier is an opaque integer standing in for `float`. -/
structure Float3 where
  x : Int
  y : Int
  z : Int
deriving DecidableEq, Repr

/-- `filament::Box`: a center and a half extent (value_array registration). -/
structure Box where
  center : Float3
  halfExtent : Float3
deriving DecidableEq, Repr

namespace filaweb

/-- The wrapper `struct filaweb::Engine`.  Its single data member is
`filament::Engine* engine`.  The field `addr` is the address of the wrapper
object itself (the value of the `filaweb::Engine*` pointing at it), needed to
express the address-of-member `&wrapper->engine` that `destroy` forwards. -/
structure Engine where
  addr : Ptr
  engine : Ptr
deriving DecidableEq, Repr

end filaweb

/-- A marshalled value crossing the binding layer. -/
inductive Val
  /-- a raw pointer to an opaque external object (`SwapChain*`, builder, ...) -/
  | ptr (p : Ptr)
  /-- `*e` : a `filament::Engine&` obtained by dereferencing the stored pointer `e` -/
  | engineDeref (p : Ptr)
  /-- `&w->engine` : the address of the `engine` member of the wrapper at `w` -/
  | engineFieldAddr (wrapperAddr : Ptr)
  /-- a `filaweb::Engine*` : a pointer to a wrapper object of this layer -/
  | wrapper (w : filaweb.Engine)
  /-- a `utils::Entity` passed by value -/
  | entity (id : Nat)
  /-- a C++ `bool` -/
  | boolean (b : Bool)
  /-- a C++ `int` -/
  | int (i : Int)
  /-- a `filament::Box` passed by value -/
  | box (b : Box)
  /-- a `filament::Engine::Backend` enumerator -/
  | backend (b : Backend)
deriving DecidableEq, Repr

/-- A failure of the external engine (the shim neither creates nor inspects
these; it only lets them pass through). -/
structure EngineError where
  code : Nat
deriving DecidableEq, Repr

/-- One call into the external engine / utils library: the fully qualified
method, the receiver object (none for static members), and the arguments. -/
structure EngineCall where
  method : String
  receiver : Option Val
  args : List Val
deriving DecidableEq, Repr

/-- The exposed operations of the three `EMSCRIPTEN_BINDINGS` blocks, one
constructor per registered function. -/
inductive OpId
  | engineCreate
  | engineDestroy
  | createSwapChain
  | destroySwapChain
  | createRenderer
  | destroyRenderer
  | createView
  | destroyView
  | createScene
  | destroyScene
  | createCamera
  | destroyCamera
  | destroyEntity
  | destroyVertexBuffer
  | render
  | setScene
  | setCamera
  | addEntity
  | renderBuilderBuild
  | boundingBox
  | culling
  | receiveShadows
  | castShadows
  | renderableManagerBuilder
  | vertexBuilderBuild
  | vertexCount
  | bufferCount
  | vertexBufferBuilder
  | indexBuilderBuild
  | indexBufferBuilder
  | entityManagerGet
  | entityManagerCreate
  | entityManagerDestroy
deriving DecidableEq, Repr, Fintype

/-- An observable action of the binding layer during one invocation.  The
constructors cover everything a body of this kind could do; the transcribed
bodies in fact only ever emit `callExternal` and (for `Engine::create`)
`newWrapper`. -/
inductive LayerAction
  /-- a call into the external engine / utils library -/
  | callExternal (c : EngineCall)
  /-- a call to another operation exposed by this same binding layer -/
  | callExposed (op : OpId) (args : List Val)
  /-- `new filaweb::Engine{...}` : allocation of a wrapper in this layer -/
  | newWrapper (w : filaweb.Engine)
  /-- `delete` of a wrapper of this layer -/
  | deleteWrapper (p : Ptr)
  /-- spawning a thread -/
  | spawnThread
  /-- suspending / yielding control before completion -/
  | suspend
deriving DecidableEq, Repr

/-- The marshalled input of one invocation: the receiver (for member
functions) and the caller-supplied argument list. -/
structure CallInput where
  recv : Option Val
  args : List Val
deriving DecidableEq, Repr

/-- The external engine, abstracted: each call either fails or returns a raw
result (a pointer address, an entity id, ... depending on the method). -/
def Oracle := EngineCall → Except EngineError Nat

/-- What a forwarding body does: the single external call it performs, the
extra layer actions after the call succeeds, and the result handed back to
the scripting caller, both as functions of the call's raw return value. -/
structure Fwd where
  call : EngineCall
  extra : Nat → List LayerAction
  res : Nat → Option Val

/-- Transcription of each exposed operation's body from
`libs/jsapi/jsbindings.cpp`: for a well-typed marshalled input, the forwarding
it performs; `none` when the input does not match the C++ signature (embind
marshalling rejects it before the body runs).  Each right-hand side is read
off the corresponding C++ body. -/
def decode : OpId → CallInput → Ptr → Option Fwd
  | .engineCreate, ⟨none, []⟩, alloc =>
      some ⟨⟨ "filament::Engine::create", none, [Val.backend Backend.OPENGL]⟩,
        fun v => [LayerAction.newWrapper ⟨alloc, v⟩],
        fun v => some (Val.wrapper ⟨alloc, v⟩)⟩
  | .engineDestroy, ⟨none, [.wrapper w]⟩, _ =>
      some ⟨⟨ "filament::Engine::destroy", none, [Val.engineFieldAddr w.addr]⟩,
        fun _ => [], fun _ => none⟩
  | .createSwapChain, ⟨some (.wrapper w), []⟩, _ =>
      some ⟨⟨ "filament::Engine::createSwapChain", some (Val.ptr w.engine), [Val.ptr nullp]⟩,
        fun _ => [], fun v => some (Val.ptr v)⟩
  | .destroySwapChain, ⟨some (.wrapper w), [.ptr sc]⟩, _ =>
      some ⟨⟨ "filament::Engine::destroy", some (Val.ptr w.engine), [Val.ptr sc]⟩,
        fun _ => [], fun _ => none⟩
  | .createRenderer, ⟨some (.wrapper w), []⟩, _ =>
      some ⟨⟨ "filament::Engine::createRenderer", some (Val.ptr w.engine), []⟩,
        fun _ => [], fun v => some (Val.ptr v)⟩
  | .destroyRenderer, ⟨some (.wrapper w), [.ptr r]⟩, _ =>
      some ⟨⟨ "filament::Engine::destroy", some (Val.ptr w.engine), [Val.ptr r]⟩,
        fun _ => [], fun _ => none⟩
  | .createView, ⟨some (.wrapper w), []⟩, _ =>
      some ⟨⟨ "filament::Engine::createView", some (Val.ptr w.engine), []⟩,
        fun _ => [], fun v => some (Val.ptr v)⟩
  | .destroyView, ⟨some (.wrapper w), [.ptr v]⟩, _ =>
      some ⟨⟨ "filament::Engine::destroy", some (Val.ptr w.engine), [Val.ptr v]⟩,
        fun _ => [], fun _ => none⟩
  | .createScene, ⟨some (.wrapper w), []⟩, _ =>
      some ⟨⟨ "filament::Engine::createScene", some (Val.ptr w.engine), []⟩,
        fun _ => [], fun v => some (Val.ptr v)⟩
  | .destroyScene, ⟨some (.wrapper w), [.ptr s]⟩, _ =>
      some ⟨⟨ "filament::Engine::destroy", some (Val.ptr w.engine), [Val.ptr s]⟩,
        fun _ => [], fun _ => none⟩
  | .createCamera, ⟨some (.wrapper w), []⟩, _ =>
      some ⟨⟨ "filament::Engine::createCamera", some (Val.ptr w.engine), []⟩,
        fun _ => [], fun v => some (Val.ptr v)⟩
  | .destroyCamera, ⟨some (.wrapper w), [.ptr c]⟩, _ =>
      some ⟨⟨ "filament::Engine::destroy", some (Val.ptr w.engine), [Val.ptr c]⟩,
        fun _ => [], fun _ => none⟩
  | .destroyEntity, ⟨some (.wrapper w), [.entity e]⟩, _ =>
      some ⟨⟨ "filament::Engine::destroy", some (Val.ptr w.engine), [Val.entity e]⟩,
        fun _ => [], fun _ => none⟩
  | .destroyVertexBuffer, ⟨some (.wrapper w), [.ptr vb]⟩, _ =>
      some ⟨⟨ "filament::Engine::destroy", some (Val.ptr w.engine), [Val.ptr vb]⟩,
        fun _ => [], fun _ => none⟩
  | .render, ⟨some (.ptr r), [.ptr v]⟩, _ =>
      some ⟨⟨ "filament::Renderer::render", some (Val.ptr r), [Val.ptr v]⟩,
        fun _ => [], fun _ => none⟩
  | .setScene, ⟨some (.ptr vw), [.ptr s]⟩, _ =>
      some ⟨⟨ "filament::View::setScene", some (Val.ptr vw), [Val.ptr s]⟩,
        fun _ => [], fun _ => none⟩
  | .setCamera, ⟨some (.ptr vw), [.ptr c]⟩, _ =>
      some ⟨⟨ "filament::View::setCamera", some (Val.ptr vw), [Val.ptr c]⟩,
        fun _ => [], fun _ => none⟩
  | .addEntity, ⟨some (.ptr s), [.entity e]⟩, _ =>
      some ⟨⟨ "filament::Scene::addEntity", some (Val.ptr s), [Val.entity e]⟩,
        fun _ => [], fun _ => none⟩
  | .renderBuilderBuild, ⟨some (.ptr b), [.wrapper w, .entity e]⟩, _ =>
      some ⟨⟨ "filament::RenderableManager::Builder::build", some (Val.ptr b),
          [Val.engineDeref w.engine, Val.entity e]⟩,
        fun _ => [], fun _ => none⟩
  | .boundingBox, ⟨some (.ptr b), [.box bx]⟩, _ =>
      some ⟨⟨ "filament::RenderableManager::Builder::boundingBox", some (Val.ptr b),
          [Val.box bx]⟩,
        fun _ => [], fun v => some (Val.ptr v)⟩
  | .culling, ⟨some (.ptr b), [.boolean en]⟩, _ =>
      some ⟨⟨ "filament::RenderableManager::Builder::culling", some (Val.ptr b),
          [Val.boolean en]⟩,
        fun _ => [], fun v => some (Val.ptr v)⟩
  | .receiveShadows, ⟨some (.ptr b), [.boolean en]⟩, _ =>
      some ⟨⟨ "filament::RenderableManager::Builder::receiveShadows", some (Val.ptr b),
          [Val.boolean en]⟩,
        fun _ => [], fun v => some (Val.ptr v)⟩
  | .castShadows, ⟨some (.ptr b), [.boolean en]⟩, _ =>
      some ⟨⟨ "filament::RenderableManager::Builder::castShadows", some (Val.ptr b),
          [Val.boolean en]⟩,
        fun _ => [], fun v => some (Val.ptr v)⟩
  | .renderableManagerBuilder, ⟨none, [.int n]⟩, _ =>
      some ⟨⟨ "filament::RenderableManager::Builder::Builder", none, [Val.int n]⟩,
        fun _ => [], fun v => some (Val.ptr v)⟩
  | .vertexBuilderBuild, ⟨some (.ptr b), [.wrapper w]⟩, _ =>
      some ⟨⟨ "filament::VertexBuffer::Builder::build", some (Val.ptr b),
          [Val.engineDeref w.engine]⟩,
        fun _ => [], fun _ => none⟩
  | .vertexCount, ⟨some (.ptr b), [.int n]⟩, _ =>
      some ⟨⟨ "filament::VertexBuffer::Builder::vertexCount", some (Val.ptr b),
          [Val.int n]⟩,
        fun _ => [], fun v => some (Val.ptr v)⟩
  | .bufferCount, ⟨some (.ptr b), [.int n]⟩, _ =>
      some ⟨⟨ "filament::VertexBuffer::Builder::bufferCount", some (Val.ptr b),
          [Val.int n]⟩,
        fun _ => [], fun v => some (Val.ptr v)⟩
  | .vertexBufferBuilder, ⟨none, []⟩, _ =>
      some ⟨⟨ "filament::VertexBuffer::Builder::Builder", none, []⟩,
        fun _ => [], fun v => some (Val.ptr v)⟩
  | .indexBuilderBuild, ⟨some (.ptr b), [.wrapper w]⟩, _ =>
      some ⟨⟨ "filament::IndexBuffer::Builder::build", some (Val.ptr b),
          [Val.engineDeref w.engine]⟩,
        fun _ => [], fun _ => none⟩
  | .indexBufferBuilder, ⟨none, []⟩, _ =>
      some ⟨⟨ "filament::IndexBuffer::Builder::Builder", none, []⟩,
        fun _ => [], fun v => some (Val.ptr v)⟩
  | .entityManagerGet, ⟨none, []⟩, _ =>
      some ⟨⟨ "utils::EntityManager::get", none, []⟩,
        fun _ => [], fun v => some (Val.ptr v)⟩
  | .entityManagerCreate, ⟨some (.ptr em), []⟩, _ =>
      some ⟨⟨ "utils::EntityManager::create", some (Val.ptr em), []⟩,
        fun _ => [], fun v => some (Val.entity v)⟩
  | .entityManagerDestroy, ⟨some (.ptr em), [.entity e]⟩, _ =>
      some ⟨⟨ "utils::EntityManager::destroy", some (Val.ptr em), [Val.entity e]⟩,
        fun _ => [], fun _ => none⟩
  | _, _, _ => none

/-- Execute one forwarding body against the external engine `o`: the single
external call is made; if it fails the error propagates unchanged, otherwise
the body finishes its extra actions and returns its result. -/
def forwardOnce (f : Fwd) (o : Oracle) : Except EngineError (List LayerAction × Option Val) :=
  match o f.call with
  | .error e => .error e
  | .ok v => .ok (LayerAction.callExternal f.call :: f.extra v, f.res v)

/-- One invocation of an exposed operation: marshal the input (`decode`),
then run the forwarding body.  `alloc` is the address the allocator hands to
the one body that allocates (`Engine::create`).  `none` means the input did
not match the operation's C++ signature. -/
def run (op : OpId) (input : CallInput) (o : Oracle) (alloc : Ptr) :
    Option (Except EngineError (List LayerAction × Option Val)) :=
  (decode op input alloc).map fun f => forwardOnce f o

/-- One row of the embind registration table: the exposed class name, the
exposed function name, whether it is a `class_function` (static), and the
operation it is bound to. -/
structure Registration where
  cls : String
  fn : String
  isStatic : Bool
  op : OpId
deriving DecidableEq, Repr

/-- The registration table, read off the three `EMSCRIPTEN_BINDINGS` blocks
(`value_types` registers only the two value arrays, which expose no
functions). -/
def bindingTable : List Registration :=
  [ ⟨ "Engine", "create", true, .engineCreate⟩,
    ⟨ "Engine", "destroy", true, .engineDestroy⟩,
    ⟨ "Engine", "createSwapChain", false, .createSwapChain⟩,
    ⟨ "Engine", "destroySwapChain", false, .destroySwapChain⟩,
    ⟨ "Engine", "createRenderer", false, .createRenderer⟩,
    ⟨ "Engine", "destroyRenderer", false, .destroyRenderer⟩,
    ⟨ "Engine", "createView", false, .createView⟩,
    ⟨ "Engine", "destroyView", false, .destroyView⟩,
    ⟨ "Engine", "createScene", false, .createScene⟩,
    ⟨ "Engine", "destroyScene", false, .destroyScene⟩,
    ⟨ "Engine", "createCamera", false, .createCamera⟩,
    ⟨ "Engine", "destroyCamera", false, .destroyCamera⟩,
    ⟨ "Engine", "destroyEntity", false, .destroyEntity⟩,
    ⟨ "Engine", "destroyVertexBuffer", false, .destroyVertexBuffer⟩,
    ⟨ "Renderer", "render", false, .render⟩,
    ⟨ "View", "setScene", false, .setScene⟩,
    ⟨ "View", "setCamera", false, .setCamera⟩,
    ⟨ "Scene", "addEntity", false, .addEntity⟩,
    ⟨ "RenderableManager$Builder", "build", false, .renderBuilderBuild⟩,
    ⟨ "RenderableManager$Builder", "boundingBox", false, .boundingBox⟩,
    ⟨ "RenderableManager$Builder", "culling", false, .culling⟩,
    ⟨ "RenderableManager$Builder", "receiveShadows", false, .receiveShadows⟩,
    ⟨ "RenderableManager$Builder", "castShadows", false, .castShadows⟩,
    ⟨ "RenderableManager", "Builder", true, .renderableManagerBuilder⟩,
    ⟨ "VertexBuffer$Builder", "build", false, .vertexBuilderBuild⟩,
    ⟨ "VertexBuffer$Builder", "vertexCount", false, .vertexCount⟩,
    ⟨ "VertexBuffer$Builder", "bufferCount", false, .bufferCount⟩,
    ⟨ "VertexBuffer", "Builder", true, .vertexBufferBuilder⟩,
    ⟨ "IndexBuffer$Builder", "build", false, .indexBuilderBuild⟩,
    ⟨ "IndexBuffer", "Builder", true, .indexBufferBuilder⟩,
    ⟨ "EntityManager", "get", true, .entityManagerGet⟩,
    ⟨ "EntityManager", "create", false, .entityManagerCreate⟩,
    ⟨ "EntityManager", "destroy", false, .entityManagerDestroy⟩ ]

/-- Every name registered at top level across the three binding blocks:
the two value arrays and the fourteen classes. -/
def registeredClasses : List String :=
  [ "float3", "Box",
    "Engine", "SwapChain", "Renderer", "View", "Scene", "Camera",
    "RenderableManager$Builder", "RenderableManager",
    "VertexBuffer$Builder", "VertexBuffer",
    "IndexBuffer$Builder", "IndexBuffer",
    "Entity", "EntityManager" ]

/-- The entity kinds the spec's create/destroy-pair sentence enumerates:
engine, swap chain, renderer, view, scene, camera, buffers (vertex and
index), entities. -/
inductive Kind
  | engine
  | swapChain
  | renderer
  | view
  | scene
  | camera
  | vertexBuffer
  | indexBuffer
  | entity
deriving DecidableEq, Repr

/-- All the kinds of the spec's enumeration. -/
def allKinds : List Kind :=
  [.engine, .swapChain, .renderer, .view, .scene, .camera,
   .vertexBuffer, .indexBuffer, .entity]

/-- Which kind of object an operation creates, read off the external call it
forwards to: the engine/swap chain/renderer/view/scene/camera constructors,
the two buffer builds (a buffer exists once its builder's `build` ran), and
`EntityManager::create`.  The three `Builder` class functions construct
builders, not one of the enumerated objects. -/
def createsKind : OpId → Option Kind
  | .engineCreate => some .engine
  | .createSwapChain => some .swapChain
  | .createRenderer => some .renderer
  | .createView => some .view
  | .createScene => some .scene
  | .createCamera => some .camera
  | .vertexBuilderBuild => some .vertexBuffer
  | .indexBuilderBuild => some .indexBuffer
  | .entityManagerCreate => some .entity
  | _ => none

/-- Which kind of object an operation destroys, read off the external call it
forwards to (`filament::Engine::destroy` overloads and
`utils::EntityManager::destroy`). -/
def destroysKind : OpId → Option Kind
  | .engineDestroy => some .engine
  | .destroySwapChain => some .swapChain
  | .destroyRenderer => some .renderer
  | .destroyView => some .view
  | .destroyScene => some .scene
  | .destroyCamera => some .camera
  | .destroyVertexBuffer => some .vertexBuffer
  | .destroyEntity => some .entity
  | .entityManagerDestroy => some .entity
  | _ => none

/-- The external calls of an action trace, in order. -/
def externalCalls (acts : List LayerAction) : List EngineCall :=
  acts.filterMap fun a =>
    match a with
    | .callExternal c => some c
    | _ => none

/-- How a member operation's receiver reaches the external engine: a wrapper
receiver stands for its stored `filament::Engine*`; every other receiver is
passed as it is. -/
def unwrapRecv : Val → Val
  | .wrapper w => .ptr w.engine
  | v => v

/-- How a caller-supplied argument reaches the external engine in the
builders' `build` bodies: a wrapper argument is dereferenced to the stored
engine (`*engine->engine`); every other argument is passed as it is. -/
def unwrapArg : Val → Val
  | .wrapper w => .engineDeref w.engine
  | v => v

/-- The argument list the amended claim C1 predicts for the one forwarded
call: the caller's arguments unaltered, except that `Engine.create` supplies
the fixed backend `OPENGL`, `createSwapChain` supplies the fixed native
window `nullptr`, `Engine.destroy` passes the address of the wrapper's stored
engine pointer, and wrapper arguments are replaced by the wrapped engine. -/
def amendedArgs (op : OpId) (input : CallInput) : List Val :=
  match op with
  | .engineCreate => [Val.backend Backend.OPENGL]
  | .createSwapChain => [Val.ptr nullp]
  | .engineDestroy =>
      match input.args with
      | [Val.wrapper w] => [Val.engineFieldAddr w.addr]
      | a => a
  | _ => input.args.map unwrapArg

/-- Claim C1 as stated: every successful invocation of an exposed operation
performs exactly one call into the underlying engine, and that call carries
exactly the caller-supplied argument list, nothing added, dropped or
altered. -/
def ClaimC1 : Prop :=
  ∀ (op : OpId) (input : CallInput) (o : Oracle) (alloc : Ptr)
    (acts : List LayerAction) (res : Option Val),
    run op input o alloc = some (.ok (acts, res)) →
      ∃ c, externalCalls acts = [c] ∧ c.args = input.args

/-- Claim C2 as stated: for each enumerated kind the exported table contains
both a create operation and a matching destroy operation. -/
def ClaimC2 : Prop :=
  ∀ k ∈ allKinds,
    (∃ r ∈ bindingTable, createsKind r.op = some k) ∧
    (∃ r ∈ bindingTable, destroysKind r.op = some k)

/-- The three exposed builder classes. -/
def builderClasses : List String :=
  [ "RenderableManager$Builder", "VertexBuffer$Builder", "IndexBuffer$Builder" ]

/-- Claim C3 as stated: each exposed builder class offers at least one
configuration function besides `build`. -/
def ClaimC3 : Prop :=
  ∀ b ∈ builderClasses, ∃ r ∈ bindingTable, r.cls = b ∧ r.fn ≠ "build"

/-- A type defined by this layer, with the names of its data members. -/
structure TypeDecl where
  name : String
  fields : List String
deriving DecidableEq, Repr

/-- The types this layer defines: the single wrapper struct `filaweb::Engine`
with its one data member `engine`, a pointer to the external engine.  All
other bound classes (`SwapChain`, `Renderer`, the builders, ...) are external
filament/utils types that this layer only names. -/
def layerTypes : List TypeDecl :=
  [ ⟨ "filaweb::Engine", ["engine"]⟩ ]

/-- Claim C4 as stated: no type defined in this layer stores data, and no
operation reads data stored in this layer — so an invocation on a wrapper
cannot depend on the wrapper's stored field. -/
def ClaimC4 : Prop :=
  (∀ t ∈ layerTypes, t.fields = []) ∧
  (∀ (op : OpId) (a e₁ e₂ : Ptr) (args : List Val) (o : Oracle) (alloc : Ptr),
    run op ⟨some (Val.wrapper ⟨a, e₁⟩), args⟩ o alloc =
      run op ⟨some (Val.wrapper ⟨a, e₂⟩), args⟩ o alloc)

/-- The external builder configuration methods the bindings forward to. -/
def builderConfigMethods : List String :=
  [ "filament::RenderableManager::Builder::boundingBox",
    "filament::RenderableManager::Builder::culling",
    "filament::RenderableManager::Builder::receiveShadows",
    "filament::RenderableManager::Builder::castShadows",
    "filament::VertexBuffer::Builder::vertexCount",
    "filament::VertexBuffer::Builder::bufferCount" ]

/-- Modelled from the spec: the filament `Builder` classes live outside the
given source slice (only their headers are included), and the spec describes
their exposed calls as "builder-pattern configuration calls"; under the
builder pattern a configuration method returns a reference to the builder it
was invoked on, so its raw result is the receiver's own address. -/
def BuilderPattern (o : Oracle) : Prop :=
  ∀ c : EngineCall, c.method ∈ builderConfigMethods →
    ∀ p, c.receiver = some (Val.ptr p) → o c = .ok p

/-- A concrete external engine that always succeeds, answering `7`. -/
def demoOracle : Oracle := fun _ => .ok 7

/-- A concrete external engine whose builder methods return their receiver. -/
def selfOracle : Oracle := fun c =>
  match c.receiver with
  | some (Val.ptr p) => .ok p
  | _ => .ok 0

/-- The underlying engine / utils method each exposed operation forwards to
(the overloaded member `filament::Engine::destroy` serves all the member
destroy operations). -/
def methodOf : OpId → String
  | .engineCreate => "filament::Engine::create"
  | .engineDestroy => "filament::Engine::destroy"
  | .createSwapChain => "filament::Engine::createSwapChain"
  | .destroySwapChain => "filament::Engine::destroy"
  | .createRenderer => "filament::Engine::createRenderer"
  | .destroyRenderer => "filament::Engine::destroy"
  | .createView => "filament::Engine::createView"
  | .destroyView => "filament::Engine::destroy"
  | .createScene => "filament::Engine::createScene"
  | .destroyScene => "filament::Engine::destroy"
  | .createCamera => "filament::Engine::createCamera"
  | .destroyCamera => "filament::Engine::destroy"
  | .destroyEntity => "filament::Engine::destroy"
  | .destroyVertexBuffer => "filament::Engine::destroy"
  | .render => "filament::Renderer::render"
  | .setScene => "filament::View::setScene"
  | .setCamera => "filament::View::setCamera"
  | .addEntity => "filament::Scene::addEntity"
  | .renderBuilderBuild => "filament::RenderableManager::Builder::build"
  | .boundingBox => "filament::RenderableManager::Builder::boundingBox"
  | .culling => "filament::RenderableManager::Builder::culling"
  | .receiveShadows => "filament::RenderableManager::Builder::receiveShadows"
  | .castShadows => "filament::RenderableManager::Builder::castShadows"
  | .renderableManagerBuilder => "filament::RenderableManager::Builder::Builder"
  | .vertexBuilderBuild => "filament::VertexBuffer::Builder::build"
  | .vertexCount => "filament::VertexBuffer::Builder::vertexCount"
  | .bufferCount => "filament::VertexBuffer::Builder::bufferCount"
  | .vertexBufferBuilder => "filament::VertexBuffer::Builder::Builder"
  | .indexBuilderBuild => "filament::IndexBuffer::Builder::build"
  | .indexBufferBuilder => "filament::IndexBuffer::Builder::Builder"
  | .entityManagerGet => "utils::EntityManager::get"
  | .entityManagerCreate => "utils::EntityManager::create"
  | .entityManagerDestroy => "utils::EntityManager::destroy"

/-- Peeling `run`: a defined invocation is the execution of the decoded
forwarding body. -/
theorem run_eq_decode {op : OpId} {input : CallInput} {o : Oracle} {alloc : Ptr}
    {r : Except EngineError (List LayerAction × Option Val)}
    (h : run op input o alloc = some r) :
    ∃ f, decode op input alloc = some f ∧ r = forwardOnce f o := by
  unfold run at h
  cases hd : decode op input alloc with
  | none => rw [hd] at h; exact absurd h (by simp)
  | some f =>
      rw [hd] at h
      exact ⟨f, rfl, (Option.some.inj h).symm⟩

/-- Peeling `forwardOnce`: a successful execution is a successful external
call followed by the body's extra actions and its result. -/
theorem forwardOnce_ok {f : Fwd} {o : Oracle} {acts : List LayerAction} {res : Option Val}
    (h : forwardOnce f o = .ok (acts, res)) :
    ∃ v, o f.call = .ok v ∧ acts = LayerAction.callExternal f.call :: f.extra v ∧
      res = f.res v := by
  unfold forwardOnce at h
  cases hv : o f.call with
  | error e => rw [hv] at h; exact absurd h (by simp)
  | ok v =>
      rw [hv] at h
      obtain ⟨h1, h2⟩ := Prod.mk.injEq .. ▸ Except.ok.inj h
      exact ⟨v, rfl, h1.symm, h2.symm⟩

set_option maxHeartbeats 1600000 in
/-- Reading off each arm of `decode`: the forwarded call is to the
operation's own underlying method, it carries exactly the arguments the
amended claim C1 predicts, it addresses the receiver the caller supplied (a
wrapper standing for its stored engine pointer), the only layer action
besides the one external call is the wrapper allocation of `Engine::create`,
and `Engine.create` accepts no receiver and no arguments at all. -/
theorem decode_spec {op : OpId} {input : CallInput} {alloc : Ptr} {f : Fwd}
    (h : decode op input alloc = some f) :
    f.call.method = methodOf op ∧
    f.call.args = amendedArgs op input ∧
    f.call.receiver = input.recv.map unwrapRecv ∧
    (∀ v a, a ∈ f.extra v → ∃ w, a = LayerAction.newWrapper w) ∧
    (op = .engineCreate → input = ⟨none, []⟩) := by
  unfold decode at h
  split at h <;>
    first
    | exact Option.noConfusion h
    | (injection h with h
       subst h
       exact ⟨rfl, rfl, rfl,
         fun v a ha => by
           first
           | exact absurd ha (List.not_mem_nil a)
           | exact ⟨_, List.mem_singleton.mp ha⟩,
         by first
           | exact fun hcr => rfl
           | exact fun hcr => OpId.noConfusion hcr⟩)

/-- A successful invocation makes exactly one external call — the decoded
body's — and every other action of its trace is a wrapper allocation. -/
theorem run_external_calls {op : OpId} {input : CallInput} {o : Oracle} {alloc : Ptr}
    {acts : List LayerAction} {res : Option Val}
    (h : run op input o alloc = some (.ok (acts, res))) :
    ∃ f, decode op input alloc = some f ∧ externalCalls acts = [f.call] ∧
      ∀ a ∈ acts, (∃ c, a = LayerAction.callExternal c) ∨
        ∃ w, a = LayerAction.newWrapper w := by
  obtain ⟨f, hd, hr⟩ := run_eq_decode h
  obtain ⟨v, hv, hacts, hres⟩ := forwardOnce_ok hr.symm
  obtain ⟨-, -, -, hextra, -⟩ := decode_spec hd
  subst hacts
  refine ⟨f, hd, ?_, ?_⟩
  · unfold externalCalls
    rw [List.filterMap_cons]
    have hnil : (f.extra v).filterMap (fun a =>
        match a with
        | LayerAction.callExternal c => some c
        | _ => none) = [] := by
      rw [List.filterMap_eq_nil_iff]
      intro a ha
      obtain ⟨w, rfl⟩ := hextra v a ha
      rfl
    simp [hnil]
  · intro a ha
    rcases List.mem_cons.mp ha with rfl | ha2
    · exact Or.inl ⟨f.call, rfl⟩
    · exact Or.inr (hextra v a ha2)

/-- Evaluating a forwarding body whose external call succeeds. -/
theorem forwardOnce_eval {f : Fwd} {o : Oracle} {v : Nat} (hv : o f.call = .ok v) :
    forwardOnce f o = .ok (LayerAction.callExternal f.call :: f.extra v, f.res v) := by
  unfold forwardOnce
  rw [hv]

/-- Claim C1, corrected: every successful invocation of an exposed operation
performs exactly one call into the underlying engine, namely to that
operation's own underlying method; the call carries the caller's arguments
unaltered except for the fixed implicit values and the wrapper translation
recorded in `amendedArgs` (`Engine.create` supplies `Backend::OPENGL`,
`createSwapChain` supplies the `nullptr` native window, `Engine.destroy`
passes the address of the wrapper's stored engine pointer, and a wrapper
argument or receiver stands for the wrapped engine). -/
theorem c1_single_forwarded_call (op : OpId) (input : CallInput) (o : Oracle)
    (alloc : Ptr) (acts : List LayerAction) (res : Option Val)
    (h : run op input o alloc = some (.ok (acts, res))) :
    ∃ c, externalCalls acts = [c] ∧ c.method = methodOf op ∧
      c.args = amendedArgs op input ∧ c.receiver = input.recv.map unwrapRecv := by
  obtain ⟨f, hd, hec, -⟩ := run_external_calls h
  obtain ⟨hm, ha, hr, -, -⟩ := decode_spec hd
  exact ⟨f.call, hec, hm, ha, hr⟩

/-- Witness for `c1_single_forwarded_call` at `createRenderer` on a concrete
wrapper and a concrete engine. -/
theorem c1_single_forwarded_call_witness :
    ∃ c, externalCalls [LayerAction.callExternal
        ⟨ "filament::Engine::createRenderer", some (Val.ptr 2), []⟩] = [c] ∧
      c.method = methodOf .createRenderer ∧
      c.args = amendedArgs .createRenderer ⟨some (Val.wrapper ⟨1, 2⟩), []⟩ ∧
      c.receiver = (some (Val.wrapper ⟨1, 2⟩)).map unwrapRecv :=
  c1_single_forwarded_call .createRenderer ⟨some (Val.wrapper ⟨1, 2⟩), []⟩
    demoOracle 0 _ _ rfl

/-- Claim C1 as stated is false: `createSwapChain` is invoked by the caller
with the empty argument list, yet the one forwarded call carries the argument
`nullptr` that the caller never supplied. -/
theorem c1_counterexample : ¬ ClaimC1 := by
  intro h
  obtain ⟨c, hc, hargs⟩ :=
    h .createSwapChain ⟨some (Val.wrapper ⟨1, 2⟩), []⟩ demoOracle 0
      [LayerAction.callExternal
        ⟨ "filament::Engine::createSwapChain", some (Val.ptr 2), [Val.ptr nullp]⟩]
      (some (Val.ptr 7)) rfl
  have hc2 : ([⟨ "filament::Engine::createSwapChain", some (Val.ptr 2),
      [Val.ptr nullp]⟩] : List EngineCall) = [c] := hc
  obtain ⟨hceq, -⟩ := List.cons.inj hc2
  rw [← hceq] at hargs
  exact List.noConfusion hargs

/-- Claim C2 as stated is false: no exposed operation destroys an index
buffer (there is no `destroyIndexBuffer` counterpart to
`destroyVertexBuffer`), so index buffers have a create but no matching
destroy. -/
theorem c2_counterexample : ¬ ClaimC2 := by
  unfold ClaimC2
  decide

/-- Claim C2, corrected: the table has a create and a matching destroy
operation for engine, swap chain, renderer, view, scene, camera, vertex
buffers and entities; index buffers have a create operation (the builder's
`build`) but no operation at all that destroys them. -/
theorem c2_create_destroy_pairs :
    (∀ k ∈ allKinds, k ≠ Kind.indexBuffer →
      (∃ r ∈ bindingTable, createsKind r.op = some k) ∧
      (∃ r ∈ bindingTable, destroysKind r.op = some k)) ∧
    (∃ r ∈ bindingTable, createsKind r.op = some Kind.indexBuffer) ∧
    (∀ op : OpId, destroysKind op ≠ some Kind.indexBuffer) := by
  decide

/-- Claim C3 as stated is false: the exposed `IndexBuffer$Builder` class
registers only `build` and no configuration function. -/
theorem c3_counterexample : ¬ ClaimC3 := by
  unfold ClaimC3
  decide

/-- Claim C3, corrected: the renderable and vertex-buffer builder classes
each expose configuration functions besides `build`, while the index-buffer
builder class exposes `build` only. -/
theorem c3_builder_config :
    (∃ r ∈ bindingTable, r.cls = "RenderableManager$Builder" ∧ r.fn ≠ "build") ∧
    (∃ r ∈ bindingTable, r.cls = "VertexBuffer$Builder" ∧ r.fn ≠ "build") ∧
    (∀ r ∈ bindingTable, r.cls = "IndexBuffer$Builder" → r.fn = "build") := by
  decide

/-- Claim C4 as stated is false: the layer-defined wrapper type
`filaweb::Engine` stores a data member (the engine pointer). -/
theorem c4_counterexample : ¬ ClaimC4 := by
  intro h
  have h1 := h.1 ⟨ "filaweb::Engine", ["engine"]⟩ (by decide)
  exact List.noConfusion h1

/-- Claim C4, corrected: the one type this layer defines is the wrapper
`filaweb::Engine` with its single stored engine pointer; apart from that
pointer all objects are opaque external handles, and an invocation's layer
actions are only the forwarded external call and, for `Engine.create`, the
wrapper allocation — the layer keeps no other state. -/
theorem c4_layer_state :
    layerTypes = [⟨ "filaweb::Engine", ["engine"]⟩] ∧
    ∀ (op : OpId) (input : CallInput) (o : Oracle) (alloc : Ptr)
      (acts : List LayerAction) (res : Option Val),
      run op input o alloc = some (.ok (acts, res)) →
        ∀ a ∈ acts, (∃ c, a = LayerAction.callExternal c) ∨
          ∃ w, a = LayerAction.newWrapper w := by
  refine ⟨rfl, ?_⟩
  intro op input o alloc acts res h a ha
  obtain ⟨f, -, -, hall⟩ := run_external_calls h
  exact hall a ha

/-- Claim C5, confirmed: an exposed operation fails exactly when its one
forwarded call fails, and the engine's error is handed through unchanged —
the body adds no error check, branch or transformation of its own. -/
theorem c5_error_passthrough (op : OpId) (input : CallInput) (o : Oracle)
    (alloc : Ptr) (r : Except EngineError (List LayerAction × Option Val))
    (h : run op input o alloc = some r) :
    ∃ f, decode op input alloc = some f ∧
      (∀ e, o f.call = .error e → r = .error e) ∧
      (∀ v, o f.call = .ok v → ∃ acts res, r = .ok (acts, res)) := by
  obtain ⟨f, hd, hr⟩ := run_eq_decode h
  subst hr
  refine ⟨f, hd, fun e he => ?_, fun v hv => ?_⟩
  · unfold forwardOnce
    rw [he]
  · exact ⟨_, _, forwardOnce_eval hv⟩

/-- Witness for `c5_error_passthrough` at `createView` on a concrete wrapper
and a concrete engine. -/
theorem c5_error_passthrough_witness :
    ∃ f, decode .createView ⟨some (Val.wrapper ⟨1, 2⟩), []⟩ 0 = some f ∧
      (∀ e, demoOracle f.call = .error e →
        (Except.ok ([LayerAction.callExternal
            ⟨ "filament::Engine::createView", some (Val.ptr 2), []⟩],
          some (Val.ptr 7)) :
            Except EngineError (List LayerAction × Option Val)) = .error e) ∧
      (∀ v, demoOracle f.call = .ok v → ∃ acts res,
        (Except.ok ([LayerAction.callExternal
            ⟨ "filament::Engine::createView", some (Val.ptr 2), []⟩],
          some (Val.ptr 7)) :
            Except EngineError (List LayerAction × Option Val)) = .ok (acts, res)) :=
  c5_error_passthrough .createView ⟨some (Val.wrapper ⟨1, 2⟩), []⟩ demoOracle 0 _ rfl

/-- Claim C6, confirmed: the layer is a flat registration table — the
registered top-level names are pairwise distinct, each (class, function)
name is registered exactly once and is bound to a single operation, and no
operation's trace ever calls back into an exposed operation of this layer. -/
theorem c6_flat_table :
    registeredClasses.Nodup ∧
    (bindingTable.map fun r => (r.cls, r.fn)).Nodup ∧
    (bindingTable.map fun r => r.op).Nodup ∧
    ∀ (op : OpId) (input : CallInput) (o : Oracle) (alloc : Ptr)
      (acts : List LayerAction) (res : Option Val),
      run op input o alloc = some (.ok (acts, res)) →
        ∀ a ∈ acts, ∀ (op2 : OpId) (args : List Val),
          a ≠ LayerAction.callExposed op2 args := by
  refine ⟨by decide, by decide, by decide, ?_⟩
  intro op input o alloc acts res h a ha op2 args
  obtain ⟨f, -, -, hall⟩ := run_external_calls h
  rcases hall a ha with ⟨c, rfl⟩ | ⟨w, rfl⟩ <;> simp

/-- Claim C7, confirmed: an invocation is one synchronous run to completion —
its trace is a finite sequence of actions none of which spawns a thread or
suspends. -/
theorem c7_synchronous (op : OpId) (input : CallInput) (o : Oracle) (alloc : Ptr)
    (acts : List LayerAction) (res : Option Val)
    (h : run op input o alloc = some (.ok (acts, res))) :
    ∀ a ∈ acts, a ≠ LayerAction.spawnThread ∧ a ≠ LayerAction.suspend := by
  intro a ha
  obtain ⟨f, -, -, hall⟩ := run_external_calls h
  rcases hall a ha with ⟨c, rfl⟩ | ⟨w, rfl⟩ <;> exact ⟨by simp, by simp⟩

/-- Witness for `c7_synchronous` at `createView` on a concrete wrapper and a
concrete engine. -/
theorem c7_synchronous_witness :
    LayerAction.callExternal
        ⟨ "filament::Engine::createView", some (Val.ptr 2), []⟩ ≠
      LayerAction.spawnThread ∧
    LayerAction.callExternal
        ⟨ "filament::Engine::createView", some (Val.ptr 2), []⟩ ≠
      LayerAction.suspend :=
  c7_synchronous .createView ⟨some (Val.wrapper ⟨1, 2⟩), []⟩ demoOracle 0 _ _ rfl
    _ (by simp)

/-- Claim C8, confirmed: every successful `Engine.create` performs exactly
the one static call `filament::Engine::create(Backend::OPENGL)`; the exposed
operation accepts no receiver and no arguments, so the caller cannot select
any other backend. -/
theorem c8_opengl_backend (input : CallInput) (o : Oracle) (alloc : Ptr)
    (acts : List LayerAction) (res : Option Val)
    (h : run .engineCreate input o alloc = some (.ok (acts, res))) :
    externalCalls acts =
      [⟨ "filament::Engine::create", none, [Val.backend Backend.OPENGL]⟩] ∧
    input = ⟨none, []⟩ := by
  obtain ⟨f, hd, hec, -⟩ := run_external_calls h
  obtain ⟨hm, ha, hr, -, hcr⟩ := decode_spec hd
  obtain rfl := hcr rfl
  refine ⟨?_, rfl⟩
  rw [hec]
  have hcall : f.call =
      ⟨ "filament::Engine::create", none, [Val.backend Backend.OPENGL]⟩ := by
    cases hfc : f.call with
    | mk m r a =>
        rw [hfc] at hm ha hr
        simp only at hm ha hr
        rw [hm, ha, hr]
        rfl
  rw [hcall]

/-- Witness for `c8_opengl_backend` on a concrete engine. -/
theorem c8_opengl_backend_witness :
    externalCalls [LayerAction.callExternal
        ⟨ "filament::Engine::create", none, [Val.backend Backend.OPENGL]⟩,
      LayerAction.newWrapper ⟨0, 7⟩] =
      [⟨ "filament::Engine::create", none, [Val.backend Backend.OPENGL]⟩] ∧
    (⟨none, []⟩ : CallInput) = ⟨none, []⟩ :=
  c8_opengl_backend ⟨none, []⟩ demoOracle 0 _ _ rfl

/-- The concrete engine `selfOracle` satisfies the builder pattern. -/
theorem selfOracle_builder : BuilderPattern selfOracle := by
  intro c hm p hr
  simp only [selfOracle]
  rw [hr]

/-- Applying the builder pattern to one configuration call. -/
theorem builderPattern_apply {o : Oracle} (ho : BuilderPattern o) (m : String)
    (p : Ptr) (args : List Val) (hm : m ∈ builderConfigMethods) :
    o ⟨m, some (Val.ptr p), args⟩ = .ok p :=
  ho ⟨m, some (Val.ptr p), args⟩ hm p rfl

/-- Claim C9, confirmed against the spec-modelled builder pattern
(`BuilderPattern`): every exposed builder configuration operation returns the
very builder pointer it was invoked on, so chained configuration calls all
act on one and the same builder object. -/
theorem c9_config_returns_self (o : Oracle) (ho : BuilderPattern o)
    (b alloc : Ptr) :
    (∀ bx, ∃ acts, run .boundingBox ⟨some (Val.ptr b), [Val.box bx]⟩ o alloc =
      some (.ok (acts, some (Val.ptr b)))) ∧
    (∀ en, ∃ acts, run .culling ⟨some (Val.ptr b), [Val.boolean en]⟩ o alloc =
      some (.ok (acts, some (Val.ptr b)))) ∧
    (∀ en, ∃ acts, run .receiveShadows ⟨some (Val.ptr b), [Val.boolean en]⟩ o alloc =
      some (.ok (acts, some (Val.ptr b)))) ∧
    (∀ en, ∃ acts, run .castShadows ⟨some (Val.ptr b), [Val.boolean en]⟩ o alloc =
      some (.ok (acts, some (Val.ptr b)))) ∧
    (∀ n, ∃ acts, run .vertexCount ⟨some (Val.ptr b), [Val.int n]⟩ o alloc =
      some (.ok (acts, some (Val.ptr b)))) ∧
    (∀ n, ∃ acts, run .bufferCount ⟨some (Val.ptr b), [Val.int n]⟩ o alloc =
      some (.ok (acts, some (Val.ptr b)))) := by
  refine ⟨fun bx => ?_, fun en => ?_, fun en => ?_, fun en => ?_,
    fun n => ?_, fun n => ?_⟩
  · exact ⟨_, congrArg some (forwardOnce_eval
      (f := ⟨⟨ "filament::RenderableManager::Builder::boundingBox",
        some (Val.ptr b), [Val.box bx]⟩, fun _ => [], fun v => some (Val.ptr v)⟩)
      (builderPattern_apply ho _ b _ (by decide)))⟩
  · exact ⟨_, congrArg some (forwardOnce_eval
      (f := ⟨⟨ "filament::RenderableManager::Builder::culling",
        some (Val.ptr b), [Val.boolean en]⟩, fun _ => [], fun v => some (Val.ptr v)⟩)
      (builderPattern_apply ho _ b _ (by decide)))⟩
  · exact ⟨_, congrArg some (forwardOnce_eval
      (f := ⟨⟨ "filament::RenderableManager::Builder::receiveShadows",
        some (Val.ptr b), [Val.boolean en]⟩, fun _ => [], fun v => some (Val.ptr v)⟩)
      (builderPattern_apply ho _ b _ (by decide)))⟩
  · exact ⟨_, congrArg some (forwardOnce_eval
      (f := ⟨⟨ "filament::RenderableManager::Builder::castShadows",
        some (Val.ptr b), [Val.boolean en]⟩, fun _ => [], fun v => some (Val.ptr v)⟩)
      (builderPattern_apply ho _ b _ (by decide)))⟩
  · exact ⟨_, congrArg some (forwardOnce_eval
      (f := ⟨⟨ "filament::VertexBuffer::Builder::vertexCount",
        some (Val.ptr b), [Val.int n]⟩, fun _ => [], fun v => some (Val.ptr v)⟩)
      (builderPattern_apply ho _ b _ (by decide)))⟩
  · exact ⟨_, congrArg some (forwardOnce_eval
      (f := ⟨⟨ "filament::VertexBuffer::Builder::bufferCount",
        some (Val.ptr b), [Val.int n]⟩, fun _ => [], fun v => some (Val.ptr v)⟩)
      (builderPattern_apply ho _ b _ (by decide)))⟩

/-- Witness for `c9_config_returns_self` on the concrete engine `selfOracle`
and the builder at address 3. -/
theorem c9_config_returns_self_witness :
    (∀ bx, ∃ acts, run .boundingBox ⟨some (Val.ptr 3), [Val.box bx]⟩ selfOracle 0 =
      some (.ok (acts, some (Val.ptr 3)))) ∧
    (∀ en, ∃ acts, run .culling ⟨some (Val.ptr 3), [Val.boolean en]⟩ selfOracle 0 =
      some (.ok (acts, some (Val.ptr 3)))) ∧
    (∀ en, ∃ acts, run .receiveShadows ⟨some (Val.ptr 3), [Val.boolean en]⟩ selfOracle 0 =
      some (.ok (acts, some (Val.ptr 3)))) ∧
    (∀ en, ∃ acts, run .castShadows ⟨some (Val.ptr 3), [Val.boolean en]⟩ selfOracle 0 =
      some (.ok (acts, some (Val.ptr 3)))) ∧
    (∀ n, ∃ acts, run .vertexCount ⟨some (Val.ptr 3), [Val.int n]⟩ selfOracle 0 =
      some (.ok (acts, some (Val.ptr 3)))) ∧
    (∀ n, ∃ acts, run .bufferCount ⟨some (Val.ptr 3), [Val.int n]⟩ selfOracle 0 =
      some (.ok (acts, some (Val.ptr 3)))) :=
  c9_config_returns_self selfOracle selfOracle_builder 3 0

/-- Claim C10, confirmed: a successful `Engine.destroy(e)` produces exactly
one action, the forwarded static call `filament::Engine::destroy` whose one
argument is the address of the wrapper's stored engine pointer
(`&e->engine`, not `e` itself); in particular the trace holds no
`deleteWrapper`, so the wrapper is never deallocated at this layer. -/
theorem c10_destroy_forwards_field_address (w : filaweb.Engine) (o : Oracle)
    (alloc : Ptr) (acts : List LayerAction) (res : Option Val)
    (h : run .engineDestroy ⟨none, [Val.wrapper w]⟩ o alloc = some (.ok (acts, res))) :
    acts = [LayerAction.callExternal
      ⟨ "filament::Engine::destroy", none, [Val.engineFieldAddr w.addr]⟩] ∧
    res = none := by
  obtain ⟨f, hd, hr⟩ := run_eq_decode h
  have hd0 : decode .engineDestroy ⟨none, [Val.wrapper w]⟩ alloc =
      some ⟨⟨ "filament::Engine::destroy", none, [Val.engineFieldAddr w.addr]⟩,
        fun _ => [], fun _ => none⟩ := rfl
  rw [hd0] at hd
  injection hd with hf
  subst hf
  obtain ⟨v, hv, hacts, hres⟩ := forwardOnce_ok hr.symm
  subst hacts
  subst hres
  exact ⟨rfl, rfl⟩

/-- Witness for `c10_destroy_forwards_field_address` on a concrete wrapper at
address 1 storing the engine pointer 2. -/
theorem c10_destroy_forwards_field_address_witness :
    [LayerAction.callExternal
        ⟨ "filament::Engine::destroy", none, [Val.engineFieldAddr 1]⟩] =
      [LayerAction.callExternal
        ⟨ "filament::Engine::destroy", none, [Val.engineFieldAddr 1]⟩] ∧
    (none : Option Val) = none :=
  c10_destroy_forwards_field_address ⟨1, 2⟩ demoOracle 0 _ _ rfl
